import Mathlib

/-!
Verification development for `chick_cal` (`src/chick_cal/gen_cal.py`).

The Python script builds an in-memory calendar of hardcoded events and
writes it to one `.ics` file.  This file gives a shallow embedding of the
script: dates and times become a plain record `DT` (arrow's `.get` and
`.replace` become record construction and field updates), `timedelta`
becomes a minute count, the `ics` `Event` becomes a record holding exactly
the attributes the script assigns, and every `c.events.add(...)` call
becomes one list element, in source order.  (The `ics` calendar stores
events in a set keyed by a per-event random uid, so every `add` call keeps
its event; a list preserves exactly that multiplicity, plus the order.)
-/

namespace ChickCal

/-- `ClassType` enum of the source (`WORKSHOP = "0"`, `LEC = "01 Lecture"`,
`TUT = "02 Tutorial"`). -/
inductive ClassType
  | WORKSHOP
  | LEC
  | TUT
deriving DecidableEq

/-- The `.value` of a `ClassType` member, exactly the literals of the enum. -/
def ClassType.value : ClassType → String
  | ClassType.WORKSHOP => "0"
  | ClassType.LEC => "01 Lecture"
  | ClassType.TUT => "02 Tutorial"

/-- `CLASS_TYPES.get(n, "")` for `CLASS_TYPES = {0: "Workshop", 1: "01 Lecture",
2: "02 Tutorial"}`. -/
def classTypesGet (n : Int) : String :=
  if n = 0 then "Workshop"
  else if n = 1 then "01 Lecture"
  else if n = 2 then "02 Tutorial"
  else ""

/-- The `class_type` argument of `gen_event` is `ClassType | int` in the
source; this sum mirrors that union. -/
inductive CTArg
  | ct (c : ClassType)
  | int (n : Int)
deriving DecidableEq

/-- A date-time as the script uses it (all in the one timezone
`Asia/Singapore`; the script never mixes timezones, so the zone is dropped). -/
structure DT where
  year : Nat
  month : Nat
  day : Nat
  hour : Nat
  minute : Nat
deriving DecidableEq

/-- `arrow.get(y, m, d, tzinfo=...)` — midnight of the given day. -/
def arrowGet (y m d : Nat) : DT := ⟨y, m, d, 0, 0⟩

/-- `arrow.get(y, m, d, h, tzinfo=...)`. -/
def arrowGetH (y m d h : Nat) : DT := ⟨y, m, d, h, 0⟩

/-- `arrow.get(y, m, d, h, mi, tzinfo=...)`. -/
def arrowGetHM (y m d h mi : Nat) : DT := ⟨y, m, d, h, mi⟩

/-- `.replace(day=d)` component of arrow's replace. -/
def DT.day_ (t : DT) (d : Nat) : DT := { t with day := d }

/-- `.replace(month=m)` component of arrow's replace. -/
def DT.month_ (t : DT) (m : Nat) : DT := { t with month := m }

/-- `.replace(hour=h)` component of arrow's replace. -/
def DT.hour_ (t : DT) (h : Nat) : DT := { t with hour := h }

/-- `.replace(minute=mi)` component of arrow's replace. -/
def DT.minute_ (t : DT) (mi : Nat) : DT := { t with minute := mi }

/-- `datetime.timedelta`, at the minute resolution the script uses
(it only ever passes whole hours and whole days). -/
structure Timedelta where
  minutes : Int
deriving DecidableEq

/-- `timedelta(hours=h)`. -/
def tdHours (h : Int) : Timedelta := ⟨h * 60⟩

/-- `timedelta(days=d)`. -/
def tdDays (d : Int) : Timedelta := ⟨d * 1440⟩

/-- `DisplayAlarm(trigger=...)` of the `ics` library. -/
structure DisplayAlarm where
  trigger : Timedelta
deriving DecidableEq

/-- The `ics.Event` as this script observes it: exactly the attributes
`gen_event` assigns.  `beginT` is the event's `begin`, `durationT` the
`duration` (`none` when `make_all_day()` was used instead), `endT` the
optionally assigned `end`. -/
structure Event where
  name : String
  beginT : DT
  durationT : Option Timedelta
  allDay : Bool
  endT : Option DT
  description : String
  location : String
  url : String
  alarms : List DisplayAlarm
deriving DecidableEq

/-- The single character `c` rendered for the decimal digit `n < 10`
(codepoint `48 + n`), as Python's decimal formatting produces it. -/
def digitChar (n : Nat) : Char := Char.ofNat (48 + n)

/-- Fuel-driven decimal rendering (most significant digit first); the fuel
is always at least the number of digits, so it never runs out. -/
def natReprCore : Nat → Nat → List Char → List Char
  | 0, _, acc => acc
  | fuel + 1, n, acc =>
    if n < 10 then digitChar (n % 10) :: acc
    else natReprCore fuel (n / 10) (digitChar (n % 10) :: acc)

/-- Decimal rendering of a natural number, as Python's `str`/format does. -/
def natRepr (n : Nat) : List Char := natReprCore (n + 1) n []

/-- Python's `f"{idx:02}"` for a nonnegative `idx`: pad with one leading
zero below ten, plain decimal otherwise. -/
def pad2 (n : Nat) : List Char := if n < 10 then '0' :: natRepr n else natRepr n

/-- Python's `s.rstrip("_")` on the character list of `s`: drop every
trailing `c`. -/
def rstripChar (c : Char) (s : List Char) : List Char :=
  (s.reverse.dropWhile (fun a => a == c)).reverse

/-- Python's `s.startswith(pre)` on character lists. -/
def lstartsWith : List Char → List Char → Bool
  | [], _ => true
  | _ :: _, [] => false
  | a :: pre, b :: s => (a == b) && lstartsWith pre s

/-- `SEM_PREFIX = r"CU_TRI323_FT"` (renamed: Lean identifier). -/
def semPref : String := "CU_TRI323_FT"

/-- The characters of `f"{SEM_PREFIX}_"`, the fixed head of every
generated session name. -/
def semPrefU : List Char := semPref.data ++ "_".data

/-- `gen_name` of the source, on character lists.  `PREFIX` of the source
is `f"{SEM_PREFIX}_{code}_S{idx:02}_"`; the branches follow the source:
lectures append `"Lec/1"`, tutorials branch on the course-code head
(`"MI"` → `"Tut_B"`, `"ECS2"` → `rstrip("_")` then `"A Tut A"`, otherwise
`"Tut/1"`), and the remaining member (`WORKSHOP`) appends `"Workshop"`. -/
def genNameData (code : List Char) (idx : Nat) (ct : ClassType) : List Char :=
  let pre := semPrefU ++ code ++ "_S".data ++ pad2 idx ++ "_".data
  match ct with
  | ClassType.LEC => pre ++ "Lec/1".data
  | ClassType.TUT =>
    if lstartsWith "MI".data code then pre ++ "Tut_B".data
    else if lstartsWith "ECS2".data code then rstripChar '_' pre ++ "A Tut A".data
    else pre ++ "Tut/1".data
  | ClassType.WORKSHOP => pre ++ "Workshop".data

/-- `gen_name(code, idx, ct)` as a `String`. -/
def gen_name (code : String) (idx : Nat) (ct : ClassType) : String :=
  ⟨genNameData code.data idx ct⟩

/-- The constant url assigned to every event (source line `e.url = ...`). -/
def genEventUrl : String :=
  "https://www.psb-academy.edu.sg/wordpress/wp-content/uploads/2020/11/Tri-223-CU_FTBArts-BM-223_Term-1-Timetable.pdf"

/-- `gen_event` of the source, arguments in source order with the source's
defaults spelled out at every call site (`end_time=None`, `all_day=False`,
`duration=3`, `location="Main Wing"`, `class_type=ClassType.LEC`,
`alarms=None`).  Field by field as the source assigns them: `duration` is
set only when not all-day (otherwise `make_all_day()`), `end` only when an
end time is passed (an arrow object is always truthy), the description is
`desc + "\n" + label` where the label comes from the enum's `.value` or
from `CLASS_TYPES.get(code, "")`, and a missing alarm list defaults to one
display alarm one hour before. -/
def gen_event (name desc : String) (start_time : DT) (end_time : Option DT)
    (all_day : Bool) (duration : Int) (location : String)
    (class_type : CTArg) (alarms : Option (List DisplayAlarm)) : Event :=
  { name := name
    beginT := start_time
    durationT := if all_day then none else some (tdHours duration)
    allDay := all_day
    endT := end_time
    description :=
      match class_type with
      | CTArg.ct c => desc ++ "\n" ++ c.value
      | CTArg.int n => desc ++ "\n" ++ classTypesGet n
    location := location
    url := genEventUrl
    alarms :=
      match alarms with
      | some l => l
      | none => [⟨tdHours (-1)⟩] }

/-- `gen_mi(c)` — course `MI(2007MK)`, lecturer `"Frank Boey Chong King"`,
`START_DATE = arrow.get(2023, 7, 24).replace(hour=15, minute=30)`; one list
element per `c.events.add(gen_event(...))` call, in source order, with the
source's default arguments spelled out. -/
def gen_mi (c : List Event) : List Event :=
  let CODE := "MI(2007MK)"
  let l := "Frank Boey Chong King"
  let START := ((arrowGet 2023 7 24).hour_ 15).minute_ 30
  c ++
  [ gen_event (gen_name CODE 1 ClassType.LEC) l (START.day_ 25) none false 3 "Main Wing" (CTArg.int 1) none
  , gen_event (gen_name CODE 2 ClassType.LEC) l ((START.day_ 1).month_ 8) none false 3 "Main Wing" (CTArg.int 1) none
  , gen_event (gen_name CODE 3 ClassType.TUT) l ((START.day_ 8).month_ 8) none false 3 "Main Wing" (CTArg.int 2) none
  , gen_event (gen_name CODE 4 ClassType.LEC) l ((((START.day_ 14).month_ 8).hour_ 12).minute_ 0) none false 3 "Main Wing" (CTArg.int 1) none
  , gen_event (gen_name CODE 5 ClassType.TUT) l ((START.day_ 15).month_ 8) none false 3 "Main Wing" (CTArg.int 2) none
  , gen_event (gen_name CODE 6 ClassType.LEC) l ((((START.day_ 21).month_ 8).hour_ 12).minute_ 0) none false 3 "Main Wing" (CTArg.int 1) none
  , gen_event (gen_name CODE 7 ClassType.TUT) l ((START.day_ 22).month_ 8) none false 3 "Main Wing" (CTArg.int 2) none
  , gen_event (gen_name CODE 8 ClassType.LEC) l ((START.day_ 29).month_ 8) none false 3 "Main Wing" (CTArg.int 1) none
  , gen_event (gen_name CODE 9 ClassType.TUT) l ((START.day_ 5).month_ 9) none false 3 "Main Wing" (CTArg.int 2) none
  , gen_event (gen_name CODE 10 ClassType.LEC) l ((START.day_ 12).month_ 9) none false 3 "Main Wing" (CTArg.int 1) none
  , gen_event (gen_name CODE 11 ClassType.TUT) l ((START.day_ 19).month_ 9) none false 3 "Main Wing" (CTArg.int 2) none
  , gen_event (gen_name CODE 12 ClassType.LEC) l ((START.day_ 26).month_ 9) none false 3 "Main Wing" (CTArg.int 1) none
  , gen_event (gen_name CODE 13 ClassType.TUT) l ((START.day_ 3).month_ 10) none false 3 "Main Wing" (CTArg.int 2) none
  , gen_event (gen_name CODE 14 ClassType.LEC) l ((START.day_ 10).month_ 10) none false 3 "Main Wing" (CTArg.int 1) none ]

/-- `gen_mlm(c)` — course `MLM(2000HR)`, lecturer `"Salitha Nair"`,
`START_DATE = arrow.get(2023, 7, 28).replace(hour=12)`.  (Sessions 3 and 5
pass a lecture name together with the tutorial integer code 2, exactly as
the source does.) -/
def gen_mlm (c : List Event) : List Event :=
  let CODE := "MLM(2000HR)"
  let l := "Salitha Nair"
  let START := (arrowGet 2023 7 28).hour_ 12
  c ++
  [ gen_event (gen_name CODE 1 ClassType.LEC) l START none false 3 "Main Wing" (CTArg.int 1) none
  , gen_event (gen_name CODE 2 ClassType.LEC) l ((START.day_ 2).month_ 8) none false 3 "Main Wing" (CTArg.int 1) none
  , gen_event (gen_name CODE 3 ClassType.LEC) l ((START.day_ 11).month_ 8) none false 3 "Main Wing" (CTArg.int 2) none
  , gen_event (gen_name CODE 4 ClassType.LEC) l ((((START.day_ 16).month_ 8).hour_ 12).minute_ 0) none false 3 "Main Wing" (CTArg.int 1) none
  , gen_event (gen_name CODE 5 ClassType.LEC) l ((START.day_ 23).month_ 8) none false 3 "Main Wing" (CTArg.int 2) none
  , gen_event (gen_name CODE 6 ClassType.LEC) l ((((START.day_ 28).month_ 8).hour_ 12).minute_ 0) none false 3 "Main Wing" (CTArg.int 1) none
  , gen_event (gen_name CODE 7 ClassType.TUT) l ((START.day_ 30).month_ 8) none false 3 "Main Wing" (CTArg.int 2) none
  , gen_event (gen_name CODE 8 ClassType.LEC) l ((START.day_ 6).month_ 9) none false 3 "Main Wing" (CTArg.int 1) none
  , gen_event (gen_name CODE 9 ClassType.TUT) l ((START.day_ 8).month_ 9) none false 3 "Main Wing" (CTArg.int 2) none
  , gen_event (gen_name CODE 10 ClassType.LEC) l ((START.day_ 13).month_ 9) none false 3 "Main Wing" (CTArg.int 1) none
  , gen_event (gen_name CODE 11 ClassType.TUT) l ((START.day_ 20).month_ 9) none false 3 "Main Wing" (CTArg.int 2) none
  , gen_event (gen_name CODE 12 ClassType.LEC) l ((START.day_ 27).month_ 9) none false 3 "Main Wing" (CTArg.int 1) none
  , gen_event (gen_name CODE 13 ClassType.TUT) l ((START.day_ 4).month_ 10) none false 3 "Main Wing" (CTArg.int 2) none
  , gen_event (gen_name CODE 14 ClassType.LEC) l ((START.day_ 11).month_ 10) none false 3 "Main Wing" (CTArg.int 1) none ]

/-- `gen_db(c)` — course `DB(2009MK)`, lecturer `"Cheng Biqing Christopher"`,
`START_DATE = arrow.get(2023, 7, 27).replace(hour=15, minute=30)`. -/
def gen_db (c : List Event) : List Event :=
  let CODE := "DB(2009MK)"
  let l := "Cheng Biqing Christopher"
  let START := ((arrowGet 2023 7 27).hour_ 15).minute_ 30
  c ++
  [ gen_event (gen_name CODE 1 ClassType.LEC) l START none false 3 "Main Wing" (CTArg.int 1) none
  , gen_event (gen_name CODE 2 ClassType.LEC) l ((START.day_ 3).month_ 8) none false 3 "Main Wing" (CTArg.int 1) none
  , gen_event (gen_name CODE 3 ClassType.TUT) l ((((START.day_ 7).month_ 8).hour_ 12).minute_ 0) none false 3 "Main Wing" (CTArg.int 2) none
  , gen_event (gen_name CODE 4 ClassType.LEC) l ((START.day_ 10).month_ 8) none false 3 "Main Wing" (CTArg.int 1) none
  , gen_event (gen_name CODE 5 ClassType.TUT) l ((START.day_ 17).month_ 8) none false 3 "Main Wing" (CTArg.int 2) none
  , gen_event (gen_name CODE 6 ClassType.LEC) l ((START.day_ 24).month_ 8) none false 3 "Main Wing" (CTArg.int 1) none
  , gen_event (gen_name CODE 7 ClassType.TUT) l ((START.day_ 31).month_ 8) none false 3 "Main Wing" (CTArg.int 2) none
  , gen_event (gen_name CODE 8 ClassType.LEC) l ((((START.day_ 4).month_ 9).hour_ 12).minute_ 0) none false 3 "Main Wing" (CTArg.int 1) none
  , gen_event (gen_name CODE 9 ClassType.TUT) l ((START.day_ 7).month_ 9) none false 3 "Main Wing" (CTArg.int 2) none
  , gen_event (gen_name CODE 10 ClassType.LEC) l ((START.day_ 14).month_ 9) none false 3 "Main Wing" (CTArg.int 1) none
  , gen_event (gen_name CODE 11 ClassType.TUT) l ((START.day_ 21).month_ 9) none false 3 "Main Wing" (CTArg.int 2) none
  , gen_event (gen_name CODE 12 ClassType.LEC) l ((START.day_ 28).month_ 9) none false 3 "Main Wing" (CTArg.int 1) none
  , gen_event (gen_name CODE 13 ClassType.TUT) l ((START.day_ 5).month_ 10) none false 3 "Main Wing" (CTArg.int 2) none
  , gen_event (gen_name CODE 14 ClassType.LEC) l ((START.day_ 12).month_ 10) none false 3 "Main Wing" (CTArg.int 1) none ]

/-- The three coursework-deadline display alarms the script attaches to
all-day due-date events: 7, 3 and 1 days before. -/
def dueAlarms : List DisplayAlarm := [⟨tdDays (-7)⟩, ⟨tdDays (-3)⟩, ⟨tdDays (-1)⟩]

/-- `gen_mm(c)` — course `MM(5010MKT)`, lecturer `"Ng Siah Heng"`,
`START_DATE = arrow.get(2023, 11, 20).replace(hour=12)`; further bases
`dec = arrow.get(2023, 12, 1)` and `jan = arrow.get(2024, 1, 1)`.  The
source adds fifteen events: sessions 1–14 and then session 13 a second
time (without the `"Stem Wing"` location of the first session-13 call). -/
def gen_mm (c : List Event) : List Event :=
  let CODE := "MM(5010MKT)"
  let l := "Ng Siah Heng"
  let START := (arrowGet 2023 11 20).hour_ 12
  let dec := arrowGet 2023 12 1
  let jan := arrowGet 2024 1 1
  c ++
  [ gen_event (gen_name CODE 1 ClassType.LEC) l START none false 3 "Main Wing" (CTArg.ct ClassType.LEC) none
  , gen_event (gen_name CODE 2 ClassType.LEC) l (((START.day_ 24).hour_ 8).minute_ 30) none false 3 "Main Wing" (CTArg.ct ClassType.LEC) none
  , gen_event (gen_name CODE 3 ClassType.TUT) l (((START.day_ 27).hour_ 15).minute_ 30) none false 3 "Main Wing" (CTArg.ct ClassType.TUT) none
  , gen_event (gen_name CODE 4 ClassType.LEC) l (((dec.day_ 1).hour_ 8).minute_ 30) none false 3 "Main Wing" (CTArg.ct ClassType.LEC) none
  , gen_event (gen_name CODE 5 ClassType.TUT) l (((dec.day_ 4).hour_ 15).minute_ 30) none false 3 "Main Wing" (CTArg.ct ClassType.TUT) none
  , gen_event (gen_name CODE 6 ClassType.LEC) l (((dec.day_ 11).hour_ 15).minute_ 30) none false 3 "Main Wing" (CTArg.ct ClassType.LEC) none
  , gen_event (gen_name CODE 7 ClassType.TUT) l ((dec.day_ 14).hour_ 12) none false 3 "Main Wing" (CTArg.ct ClassType.TUT) none
  , gen_event (gen_name CODE 8 ClassType.LEC) l ((jan.day_ 4).hour_ 12) none false 3 "Main Wing" (CTArg.ct ClassType.LEC) none
  , gen_event (gen_name CODE 9 ClassType.TUT) l ((jan.day_ 5).hour_ 12) none false 3 "Stem WIng" (CTArg.ct ClassType.TUT) none
  , gen_event (gen_name CODE 10 ClassType.LEC) l (((jan.day_ 8).hour_ 15).minute_ 30) none false 3 "Main Wing" (CTArg.ct ClassType.LEC) none
  , gen_event (gen_name CODE 11 ClassType.TUT) l (((jan.day_ 15).hour_ 15).minute_ 30) none false 3 "Main Wing" (CTArg.ct ClassType.TUT) none
  , gen_event (gen_name CODE 12 ClassType.LEC) l (((jan.day_ 18).hour_ 8).minute_ 30) none false 3 "Main Wing" (CTArg.ct ClassType.LEC) none
  , gen_event (gen_name CODE 13 ClassType.TUT) l (((jan.day_ 22).hour_ 15).minute_ 30) none false 3 "Stem Wing" (CTArg.ct ClassType.TUT) none
  , gen_event (gen_name CODE 14 ClassType.LEC) l (((jan.day_ 26).hour_ 15).minute_ 30) none false 3 "Main Wing" (CTArg.ct ClassType.LEC) none
  , gen_event (gen_name CODE 13 ClassType.TUT) l (((jan.day_ 22).hour_ 15).minute_ 30) none false 3 "Main Wing" (CTArg.ct ClassType.TUT) none ]

/-- `gen_ecs2(c)` — course `ECS2(A201CS)`, lecturer `"Victor Ong"`,
`START_DATE = arrow.get(2023, 11, 22, 15, 30)`; base
`d = arrow.get(2023, 12, 1)`; plus the all-day coursework due-date event. -/
def gen_ecs2 (c : List Event) : List Event :=
  let CODE := "ECS2(A201CS)"
  let l := "Victor Ong"
  let START := arrowGetHM 2023 11 22 15 30
  let d := arrowGet 2023 12 1
  c ++
  [ gen_event (gen_name CODE 1 ClassType.LEC) l START none false 3 "Main Wing" (CTArg.ct ClassType.LEC) none
  , gen_event (gen_name CODE 2 ClassType.LEC) l ((START.day_ 29).hour_ 15) none false 3 "Main Wing" (CTArg.ct ClassType.LEC) none
  , gen_event (gen_name CODE 3 ClassType.TUT) l (((START.day_ 30).hour_ 8).minute_ 30) none false 3 "Stem Wing" (CTArg.ct ClassType.TUT) none
  , gen_event (gen_name CODE 4 ClassType.LEC) l (((d.day_ 6).hour_ 15).minute_ 30) none false 3 "Main Wing" (CTArg.ct ClassType.LEC) none
  , gen_event (gen_name CODE 5 ClassType.LEC) l (((d.day_ 7).hour_ 15).minute_ 30) none false 3 "Main Wing" (CTArg.ct ClassType.LEC) none
  , gen_event (gen_name CODE 6 ClassType.LEC) l (((d.day_ 8).hour_ 15).minute_ 30) none false 3 "Main Wing" (CTArg.ct ClassType.LEC) none
  , gen_event (gen_name CODE 7 ClassType.TUT) l (((d.day_ 15).hour_ 15).minute_ 30) none false 3 "Main Wing" (CTArg.ct ClassType.TUT) none
  , gen_event "Effective Communication Skills 2 CW Due" "" (arrowGet 2023 12 13) none true 3 "" (CTArg.ct ClassType.LEC) (some dueAlarms) ]

/-- `gen_cb(c)` — course `CB(5006MKT)`, lecturer
`"S Salitha Nair D/O M Subramaniam"`, `START_DATE = arrow.get(2023, 11, 21)`;
bases `d = arrow.get(2023, 12, 1)`, `jan = arrow.get(2024, 1, 1)`,
`feb = arrow.get(2024, 2, 1)`; sessions 6 and 7 replace on the November
base, as the source does; plus the all-day coursework due-date and the
exam on 2024-02-29 14:00 with four alarms. -/
def gen_cb (c : List Event) : List Event :=
  let CODE := "CB(5006MKT)"
  let l := "S Salitha Nair D/O M Subramaniam"
  let START := arrowGet 2023 11 21
  let d := arrowGet 2023 12 1
  let jan := arrowGet 2024 1 1
  let feb := arrowGet 2024 2 1
  c ++
  [ gen_event (gen_name CODE 1 ClassType.LEC) l (START.hour_ 12) none false 3 "Main Wing" (CTArg.ct ClassType.LEC) none
  , gen_event (gen_name CODE 2 ClassType.LEC) l ((START.day_ 23).hour_ 12) none false 3 "Main Wing" (CTArg.ct ClassType.LEC) none
  , gen_event (gen_name CODE 3 ClassType.TUT) l ((START.day_ 28).hour_ 12) none false 3 "Main Wing" (CTArg.ct ClassType.TUT) none
  , gen_event (gen_name CODE 4 ClassType.LEC) l ((d.day_ 1).hour_ 12) none false 3 "Main Wing" (CTArg.ct ClassType.LEC) none
  , gen_event (gen_name CODE 5 ClassType.TUT) l ((d.day_ 5).hour_ 12) none false 3 "Main Wing" (CTArg.ct ClassType.TUT) none
  , gen_event (gen_name CODE 6 ClassType.LEC) l ((START.day_ 12).hour_ 12) none false 3 "Main Wing" (CTArg.ct ClassType.LEC) none
  , gen_event (gen_name CODE 7 ClassType.TUT) l (((START.day_ 13).hour_ 15).minute_ 30) none false 3 "Main Wing" (CTArg.ct ClassType.TUT) none
  , gen_event (gen_name CODE 8 ClassType.LEC) l ((jan.day_ 9).hour_ 12) none false 3 "Main Wing" (CTArg.ct ClassType.LEC) none
  , gen_event (gen_name CODE 9 ClassType.TUT) l ((jan.day_ 12).hour_ 12) none false 3 "Main Wing" (CTArg.ct ClassType.TUT) none
  , gen_event (gen_name CODE 10 ClassType.LEC) l ((jan.day_ 16).hour_ 12) none false 3 "Main Wing" (CTArg.ct ClassType.LEC) none
  , gen_event (gen_name CODE 11 ClassType.TUT) l ((jan.day_ 23).hour_ 12) none false 3 "Main Wing" (CTArg.ct ClassType.TUT) none
  , gen_event (gen_name CODE 12 ClassType.LEC) l ((jan.day_ 25).hour_ 12) none false 3 "Main Wing" (CTArg.ct ClassType.LEC) none
  , gen_event (gen_name CODE 13 ClassType.TUT) l (((feb.day_ 19).hour_ 15).minute_ 30) none false 3 "Main Wing" (CTArg.ct ClassType.TUT) none
  , gen_event (gen_name CODE 14 ClassType.LEC) l ((feb.day_ 20).hour_ 12) none false 3 "Main Wing" (CTArg.ct ClassType.LEC) none
  , gen_event "Consumer Behaviour CW Due" "" (arrowGet 2024 1 11) none true 3 "" (CTArg.ct ClassType.LEC) (some dueAlarms)
  , gen_event "Consumer Behaviour Exam" "" (arrowGetH 2024 2 29 14) none false 3 "" (CTArg.ct ClassType.LEC) (some (dueAlarms ++ [⟨tdHours (-3)⟩])) ]

/-- `gen_cp(c)` — course `CP(5005MKT)`, lecturer `"Victor Ong"`, base
`jan = arrow.get(2024, 1, 1)`; seven sessions plus the all-day coursework
due-date event. -/
def gen_cp (c : List Event) : List Event :=
  let CODE := "CP(5005MKT)"
  let l := "Victor Ong"
  let jan := arrowGet 2024 1 1
  c ++
  [ gen_event (gen_name CODE 1 ClassType.LEC) l (((jan.day_ 2).hour_ 15).minute_ 30) none false 3 "Main Wing" (CTArg.ct ClassType.LEC) none
  , gen_event (gen_name CODE 2 ClassType.LEC) l (((jan.day_ 3).hour_ 15).minute_ 30) none false 3 "Main Wing" (CTArg.ct ClassType.LEC) none
  , gen_event (gen_name CODE 3 ClassType.TUT) l ((jan.day_ 10).hour_ 12) none false 3 "Main Wing" (CTArg.ct ClassType.TUT) none
  , gen_event (gen_name CODE 4 ClassType.LEC) l ((jan.day_ 11).hour_ 12) none false 3 "Main Wing" (CTArg.ct ClassType.LEC) none
  , gen_event (gen_name CODE 5 ClassType.LEC) l (((jan.day_ 17).hour_ 15).minute_ 30) none false 3 "Main Wing" (CTArg.ct ClassType.LEC) none
  , gen_event (gen_name CODE 6 ClassType.TUT) l ((jan.day_ 19).hour_ 12) none false 3 "Stem Wing" (CTArg.ct ClassType.TUT) none
  , gen_event (gen_name CODE 7 ClassType.LEC) l (((jan.day_ 24).hour_ 15).minute_ 30) none false 3 "Main Wing" (CTArg.ct ClassType.LEC) none
  , gen_event "Career Preparation CW Due" "" (arrowGet 2024 1 24) none true 3 "" (CTArg.ct ClassType.LEC) (some dueAlarms) ]

/-- `gen_duedates(c)` — the five all-day first-semester coursework
due-date events (nested inside `gen_first_sem` in the source). -/
def gen_duedates (c : List Event) : List Event :=
  c ++
  [ gen_event "Marketing Insight CW1 Due" "" (arrowGet 2023 8 29) none true 3 "" (CTArg.ct ClassType.LEC) (some dueAlarms)
  , gen_event "Marketing Insight CW2 Due" "" (arrowGet 2023 10 15) none true 3 "" (CTArg.ct ClassType.LEC) (some dueAlarms)
  , gen_event "Management and Leadership in Marketing CW Due" "" (arrowGet 2023 10 12) none true 3 "" (CTArg.ct ClassType.LEC) (some dueAlarms)
  , gen_event "Digital Business CW1 Due" "" (arrowGet 2023 9 12) none true 3 "" (CTArg.ct ClassType.LEC) (some dueAlarms)
  , gen_event "Digital Business CW2 Due" "" (arrowGet 2023 10 4) none true 3 "" (CTArg.ct ClassType.LEC) (some dueAlarms) ]

/-- `gen_workshops(c)` — the three first-semester workshop events (nested
inside `gen_first_sem` in the source);
`START_DATE = arrow.get(2023, 7, 24).replace(hour=15, minute=30)`. -/
def gen_workshops (c : List Event) : List Event :=
  let START := ((arrowGet 2023 7 24).hour_ 15).minute_ 30
  c ++
  [ gen_event "CU Referencing Workshop" "Dr Ng Jia Yun Florence" START none false 3 "Main Wing" (CTArg.ct ClassType.LEC) none
  , gen_event "GNet" "" ((((START.day_ 31).month_ 7).hour_ 10).minute_ 0) none false 2 "Main Wing" (CTArg.ct ClassType.LEC) none
  , gen_event "Marketing Intensive Workshop" "Dr Liow Li Sa Melissa" ((((START.day_ 12).month_ 8).hour_ 9).minute_ 0) none false 9 "Main Wing" (CTArg.ct ClassType.LEC) none ]

/-- `gen_holidays(c)` — the four all-day holiday-break events (nested
inside `gen_second_sem` in the source), each with an explicit end date. -/
def gen_holidays (c : List Event) : List Event :=
  c ++
  [ gen_event "Midterm Break" "" (arrowGet 2023 12 18) (some (arrowGet 2023 12 22)) true 3 "Main Wing" (CTArg.ct ClassType.LEC) none
  , gen_event "PH Christmas Break" "" (arrowGet 2023 12 26) (some (arrowGet 2023 12 30)) true 3 "Main Wing" (CTArg.ct ClassType.LEC) none
  , gen_event "Study Break" "" (arrowGet 2024 1 29) (some (arrowGet 2024 2 8)) true 3 "Main Wing" (CTArg.ct ClassType.LEC) none
  , gen_event "Chinese New Year Break" "" (arrowGet 2024 2 12) (some (arrowGet 2024 2 16)) true 3 "Main Wing" (CTArg.ct ClassType.LEC) none ]

/-- `gen_first_sem()` — fresh calendar, then `gen_workshops`, `gen_mi`,
`gen_mlm`, `gen_db`, `gen_duedates`, in source order. -/
def gen_first_sem : List Event :=
  gen_duedates (gen_db (gen_mlm (gen_mi (gen_workshops []))))

/-- `gen_second_sem()` — fresh calendar, then `gen_mm`, `gen_ecs2`,
`gen_cb`, `gen_cp`, `gen_holidays`, in source order.  This is the calendar
the `__main__` block serializes to `psb.ics`. -/
def gen_second_sem : List Event :=
  gen_holidays (gen_cp (gen_cb (gen_ecs2 (gen_mm []))))

/-- Gregorian leap year, as the `datetime` module defines it. -/
def isLeap (y : Nat) : Bool := y % 4 = 0 && (y % 100 ≠ 0 || y % 400 = 0)

/-- Number of days of a (valid) month in the Gregorian calendar. -/
def daysInMonth (y m : Nat) : Nat :=
  if m = 2 then (if isLeap y then 29 else 28)
  else if m = 4 || m = 6 || m = 9 || m = 11 then 30
  else 31

/-- A `DT` denotes a valid calendar date-time: month in range, day in
range for that month and year, hour below 24, minute below 60 — the
validity the `arrow`/`datetime` constructors enforce. -/
def validDT (t : DT) : Bool :=
  1 ≤ t.month && t.month ≤ 12 && 1 ≤ t.day && t.day ≤ daysInMonth t.year t.month
    && t.hour < 24 && t.minute < 60

/-- Every base date-time the script constructs by a direct `arrow.get`
call (with the `.replace` that immediately follows it where there is one):
the per-course `START_DATE`s and the month bases `dec`/`jan`/`d`/`feb`.
Every other date-time of the script is one of these with some fields
replaced and appears as the begin or end of an event of `gen_first_sem`
or `gen_second_sem`. -/
def programBaseDTs : List DT :=
  [ ((arrowGet 2023 7 24).hour_ 15).minute_ 30
  , (arrowGet 2023 7 28).hour_ 12
  , ((arrowGet 2023 7 27).hour_ 15).minute_ 30
  , (arrowGet 2023 11 20).hour_ 12
  , arrowGet 2023 12 1
  , arrowGet 2024 1 1
  , arrowGetHM 2023 11 22 15 30
  , arrowGet 2023 11 21
  , arrowGet 2024 2 1 ]

/-- One step of the program's observable behaviour: adding an event to the
in-memory calendar, or writing a file. -/
inductive Act
  | add (e : Event)
  | write (path : String)
deriving DecidableEq

/-- Whether an action is a file write. -/
def Act.isWrite : Act → Bool
  | Act.write _ => true
  | Act.add _ => false

/-- The action trace of the `__main__` block: `c = gen_second_sem()` runs
every `c.events.add(...)` call to completion (one `add` per event, in
order) and only then does `open("psb.ics", "w")` / `writelines` perform
the single write. -/
def mainTrace : List Act :=
  gen_second_sem.map Act.add ++ [Act.write "psb.ics"]

/-- Modelled from the spec: the record fields the spec claims suffice —
`{title, start, optional end, all-day flag, duration, description,
location, reminder offsets}` — written with the attribute names the
source uses on `ics.Event` (`title` is `name`, `start` is `begin`,
reminder offsets are `alarms`). -/
def claimedEventFields : List String :=
  ["name", "begin", "end", "all_day", "duration", "description", "location", "alarms"]

/-- The `ics.Event` attributes that the body of `gen_event` assigns, in
source order: `e.name`, `e.begin`, `e.duration` / `make_all_day()` (the
`all_day` state), `e.end`, `e.description`, `e.location`, `e.url`,
`e.alarms`. -/
def genEventAssignedFields : List String :=
  ["name", "begin", "duration", "all_day", "end", "description", "location", "url", "alarms"]

/-- Whether the begin (and, when present, the end) of an event is a valid
calendar date-time. -/
def eventDatesValid (e : Event) : Bool :=
  validDT e.beginT
    && (match e.endT with
        | some t => validDT t
        | none => true)

/-- **C1** (code evaluation at the failing input): in `gen_mm` the session
name of index 13 (tutorial) is constructed by two distinct
event-construction calls — the event count for that name is 2 — while
every other course-generating function uses each session name exactly
once; the fifteen records `gen_mm` adds are nevertheless pairwise
distinct (the two session-13 records differ in location). -/
theorem gen_mm_adds_session13_twice :
    ((gen_mm []).map Event.name).count (gen_name "MM(5010MKT)" 13 ClassType.TUT) = 2
    ∧ ((gen_mi []).map Event.name).Nodup
    ∧ ((gen_mlm []).map Event.name).Nodup
    ∧ ((gen_db []).map Event.name).Nodup
    ∧ ((gen_ecs2 []).map Event.name).Nodup
    ∧ ((gen_cb []).map Event.name).Nodup
    ∧ ((gen_cp []).map Event.name).Nodup
    ∧ (gen_mm []).Nodup := by decide

/-- **C2** (counterexample): the calendar the script serializes is
`gen_second_sem()`, and none of the events built by `gen_workshops` is in
it — the written calendar contains no workshop event, contrary to the
claim that at least one is present. -/
theorem written_calendar_has_no_workshop_event :
    ((gen_workshops []).all fun e => !(gen_second_sem.contains e)) = true := by decide

/-- **C2** (amended): the written calendar (`gen_second_sem`) does contain
class-schedule sessions, all-day coursework due-date events and all-day
holiday-break events, but no event sharing even a name with the workshop
events; workshops exist only in `gen_first_sem`, which `__main__` never
calls. -/
theorem written_calendar_event_kinds :
    (∃ e ∈ gen_second_sem, e.name = gen_name "MM(5010MKT)" 1 ClassType.LEC)
    ∧ (∃ e ∈ gen_second_sem, e.name = "Consumer Behaviour CW Due" ∧ e.allDay = true)
    ∧ (∃ e ∈ gen_second_sem, e.name = "Midterm Break" ∧ e.allDay = true)
    ∧ (∀ e ∈ gen_workshops [], ∀ f ∈ gen_second_sem, e.name ≠ f.name) := by decide

/-- **C3** (counterexample): `gen_event` assigns the attribute `url`,
which is outside the claimed record field set
`{title, start, end, all-day flag, duration, description, location,
reminder offsets}`, and the value it assigns is a non-empty constant, so
an event carries observable data the claimed record type cannot hold. -/
theorem gen_event_assigns_url_field :
    "url" ∈ genEventAssignedFields ∧ "url" ∉ claimedEventFields
    ∧ (gen_event "E" "D" (arrowGet 2024 1 1) none false 3 "L"
        (CTArg.ct ClassType.LEC) none).url ≠ "" := by decide

/-- **C3** (amended): `gen_event` sets exactly the claimed fields plus one
more — a `url` attribute holding one fixed timetable link on every event;
every field it assigns is either claimed or `url`, and every claimed
field is assigned. -/
theorem gen_event_fields_claimed_plus_url :
    (∀ nm d st et ad du loc ct al,
      (gen_event nm d st et ad du loc ct al).url = genEventUrl)
    ∧ (∀ f ∈ genEventAssignedFields, f ∈ claimedEventFields ∨ f = "url")
    ∧ (∀ f ∈ claimedEventFields, f ∈ genEventAssignedFields) :=
  ⟨fun _ _ _ _ _ _ _ _ _ => rfl, by decide, by decide⟩

/-- **C5** (counterexample): calling `gen_event` with
`ClassType.WORKSHOP` and with the integer code `0`, all other arguments
equal, yields different event records: the enum's `.value` is the string
`"0"` while `CLASS_TYPES[0]` is `"Workshop"`, so the descriptions
differ. -/
theorem workshop_enum_int_descriptions_differ :
    (gen_event "N" "D" (arrowGet 2023 11 20) none false 3 "Main Wing"
        (CTArg.ct ClassType.WORKSHOP) none).description
      ≠ (gen_event "N" "D" (arrowGet 2023 11 20) none false 3 "Main Wing"
        (CTArg.int 0) none).description := by decide

/-- **C5** (amended): the enum/integer correspondence holds for `LEC`/`1`
and `TUT`/`2` — the full event records are equal — but fails for
`WORKSHOP`/`0`: there the enum call's description ends in `"0"` while the
integer call's ends in `"Workshop"`. -/
theorem enum_int_code_equivalence :
    (∀ nm d st et ad du loc al,
      gen_event nm d st et ad du loc (CTArg.ct ClassType.LEC) al
        = gen_event nm d st et ad du loc (CTArg.int 1) al)
    ∧ (∀ nm d st et ad du loc al,
      gen_event nm d st et ad du loc (CTArg.ct ClassType.TUT) al
        = gen_event nm d st et ad du loc (CTArg.int 2) al)
    ∧ (∀ nm d st et ad du loc al,
      (gen_event nm d st et ad du loc (CTArg.ct ClassType.WORKSHOP) al).description
          = d ++ "\n" ++ "0"
      ∧ (gen_event nm d st et ad du loc (CTArg.int 0) al).description
          = d ++ "\n" ++ "Workshop") :=
  ⟨fun _ _ _ _ _ _ _ _ => rfl, fun _ _ _ _ _ _ _ _ => rfl,
   fun _ _ _ _ _ _ _ _ => ⟨rfl, rfl⟩⟩

/-- `natReprCore` only ever prepends to its accumulator. -/
theorem natReprCore_append (fuel : Nat) :
    ∀ (n : Nat) (acc : List Char), ∃ l, natReprCore fuel n acc = l ++ acc := by
  induction fuel with
  | zero => intro n acc; exact ⟨[], rfl⟩
  | succ fuel ih =>
    intro n acc
    by_cases hn : n < 10
    · exact ⟨[digitChar (n % 10)], by simp [natReprCore, hn]⟩
    · obtain ⟨l, hl⟩ := ih (n / 10) (digitChar (n % 10) :: acc)
      exact ⟨l ++ [digitChar (n % 10)], by simp [natReprCore, hn, hl]⟩

/-- The decimal rendering of `n` ends in the digit of `n % 10`. -/
theorem natRepr_decomp (n : Nat) : ∃ l, natRepr n = l ++ [digitChar (n % 10)] := by
  unfold natRepr
  by_cases hn : n < 10
  · exact ⟨[], by simp [natReprCore, hn]⟩
  · obtain ⟨l, hl⟩ := natReprCore_append n (n / 10) [digitChar (n % 10)]
    exact ⟨l, by simp [natReprCore, hn, hl]⟩

/-- The zero-padded rendering of `n` ends in the digit of `n % 10`. -/
theorem pad2_decomp (n : Nat) : ∃ l, pad2 n = l ++ [digitChar (n % 10)] := by
  unfold pad2
  by_cases hn : n < 10
  · obtain ⟨l, hl⟩ := natRepr_decomp n
    exact ⟨'0' :: l, by simp [hn, hl]⟩
  · simpa [hn] using natRepr_decomp n

/-- A decimal digit character is never an underscore. -/
theorem digitChar_mod_ne (n : Nat) : (digitChar (n % 10) == '_') = false := by
  have hb : ∀ k, k < 10 → (digitChar k == '_') = false := by decide
  exact hb (n % 10) (Nat.mod_lt n (by decide))

/-- Stripping trailing underscores from a list that ends in one
non-underscore character followed by one underscore removes exactly that
underscore. -/
theorem rstrip_snoc (B : List Char) (d : Char) (hd : (d == '_') = false) :
    rstripChar '_' ((B ++ [d]) ++ ['_']) = B ++ [d] := by
  unfold rstripChar
  simp [List.dropWhile, hd]

/-- `PREFIX.rstrip("_")` of the source: since the padded index ends in a
digit, stripping the trailing underscore of the name head removes only
that underscore. -/
theorem rstrip_pad_tail (A : List Char) (n : Nat) :
    rstripChar '_' (A ++ pad2 n ++ "_".data) = A ++ pad2 n := by
  obtain ⟨l, hl⟩ := pad2_decomp n
  have hu : "_".data = ['_'] := rfl
  rw [hl, hu]
  have h1 : A ++ (l ++ [digitChar (n % 10)]) ++ ['_']
      = (((A ++ l) ++ [digitChar (n % 10)]) ++ ['_']) := by simp [List.append_assoc]
  rw [h1, rstrip_snoc (A ++ l) _ (digitChar_mod_ne n)]
  simp [List.append_assoc]

/-- Below 100, Python's `{:02}` format yields exactly two characters. -/
theorem pad2_length (n : Nat) (h : n < 100) : (pad2 n).length = 2 := by
  by_cases hn : n < 10
  · simp [pad2, hn, natRepr, natReprCore]
  · obtain ⟨m, rfl⟩ : ∃ m, n = m + 1 := ⟨n - 1, by omega⟩
    have h1 : (m + 1) / 10 < 10 := by omega
    simp [pad2, hn, natRepr, natReprCore, h1]

/-- **C4**: for every course code, session index (any index the two-digit
format accommodates) and session kind, the name `gen_name` returns —
deterministically, since `gen_name` is a pure function of exactly these
three inputs — begins with the fixed semester head `"CU_TRI323_FT_"`
followed by the course code, the literal `"_S"` separator of the format
string, and the zero-padded two-digit session index. -/
theorem gen_name_format (code : String) (idx : Nat) (ct : ClassType) (h : idx < 100) :
    (∃ rest, (gen_name code idx ct).data
        = semPrefU ++ code.data ++ "_S".data ++ pad2 idx ++ rest)
    ∧ semPrefU = "CU_TRI323_FT_".data
    ∧ (pad2 idx).length = 2 := by
  refine ⟨?_, by decide, pad2_length idx h⟩
  have hdata : (gen_name code idx ct).data = genNameData code.data idx ct := rfl
  rw [hdata]
  cases ct with
  | LEC =>
    exact ⟨"_".data ++ "Lec/1".data, by simp [genNameData, List.append_assoc]⟩
  | WORKSHOP =>
    exact ⟨"_".data ++ "Workshop".data, by simp [genNameData, List.append_assoc]⟩
  | TUT =>
    by_cases hmi : lstartsWith "MI".data code.data
    · exact ⟨"_".data ++ "Tut_B".data, by simp [genNameData, hmi, List.append_assoc]⟩
    · by_cases hecs : lstartsWith "ECS2".data code.data
      · refine ⟨"A Tut A".data, ?_⟩
        have hr := rstrip_pad_tail (semPrefU ++ code.data ++ "_S".data) idx
        simp only [genNameData, hmi, hecs, Bool.false_eq_true, if_false, if_true]
        exact congrArg (fun t => t ++ "A Tut A".data) hr
      · exact ⟨"_".data ++ "Tut/1".data, by simp [genNameData, hmi, hecs, List.append_assoc]⟩

/-- Witness for `gen_name_format` at the concrete triple
`("ECS2(A201CS)", 3, TUT)` — the branch that strips the underscore. -/
theorem gen_name_format_witness :
    3 < 100
    ∧ ((∃ rest, (gen_name "ECS2(A201CS)" 3 ClassType.TUT).data
        = semPrefU ++ "ECS2(A201CS)".data ++ "_S".data ++ pad2 3 ++ rest)
      ∧ semPrefU = "CU_TRI323_FT_".data
      ∧ (pad2 3).length = 2) :=
  ⟨by decide, gen_name_format "ECS2(A201CS)" 3 ClassType.TUT (by decide)⟩

/-- **C6**: every date-time the script's hardcoded data constructs — each
`arrow.get` base (with its immediate `.replace`) and the begin/end of
every event of both semesters, which exhaust the `.replace` results,
including the 2024-02-29 exam — is a valid calendar date-time, so the
invalid-date failure is unreachable in any run of the script as
written. -/
theorem all_program_datetimes_valid :
    programBaseDTs.all validDT = true
    ∧ ((gen_first_sem ++ gen_second_sem).all eventDatesValid) = true := by decide

/-- **C8**: in the trace of the `__main__` block, the only write is the
single final write of `psb.ics`: every event-adding action precedes it,
so the calendar is complete in memory before serialization, and no write
happens while events are still being added. -/
theorem single_write_after_all_adds :
    mainTrace.filter Act.isWrite = [Act.write "psb.ics"]
    ∧ mainTrace.getLast? = some (Act.write "psb.ics")
    ∧ (mainTrace.dropLast.all fun a => !(Act.isWrite a)) = true := by decide

/-- **C9**: whatever the other arguments, `gen_event` with `alarms = None`
returns an event carrying exactly one display alarm triggered one hour
before the start (`timedelta(hours=-1)`), and with a supplied alarm list
it carries exactly that list. -/
theorem gen_event_alarm_defaulting :
    ∀ nm d st et ad du loc ct,
      (gen_event nm d st et ad du loc ct none).alarms = [⟨tdHours (-1)⟩]
      ∧ ∀ l, (gen_event nm d st et ad du loc ct (some l)).alarms = l :=
  fun _ _ _ _ _ _ _ _ => ⟨rfl, fun _ => rfl⟩

/-- **C10**: `gen_event` is total in an integer `class_type`: for any
integer outside `{0, 1, 2}` it still returns an event, whose description
is `desc` followed by a newline and the empty string
(`CLASS_TYPES.get(code, "")` falls back to `""`). -/
theorem unknown_int_code_empty_label (n : Int) (h0 : n ≠ 0) (h1 : n ≠ 1) (h2 : n ≠ 2) :
    ∀ nm d st et ad du loc al,
      (gen_event nm d st et ad du loc (CTArg.int n) al).description
        = d ++ "\n" ++ "" := by
  intro nm d st et ad du loc al
  simp [gen_event, classTypesGet, h0, h1, h2]

/-- Witness for the previous theorem at the concrete code 5. -/
theorem unknown_int_code_empty_label_witness :
    (5 : Int) ≠ 0 ∧ (5 : Int) ≠ 1 ∧ (5 : Int) ≠ 2
    ∧ (gen_event "N" "D" (arrowGet 2024 1 1) none false 3 "L"
        (CTArg.int 5) none).description = "D" ++ "\n" ++ "" :=
  ⟨by decide, by decide, by decide,
   unknown_int_code_empty_label 5 (by decide) (by decide) (by decide)
     "N" "D" (arrowGet 2024 1 1) none false 3 "L" none⟩

end ChickCal
